import Mathlib

/-!
Verification of the TheButton pipeline: a shallow embedding of the reducer
fold (`apply_event` / `apply_batch` and the rules logic), the proof-of-work
verifier, the sliding-window rate limiter, the press endpoint control flow,
and the update-channel message, with theorems settling the stated
behavioural properties.

Python floats are idealised as exact rationals; Python machine integers are
unbounded, matching `Int`.
-/

namespace TheButton

/-- Python `int()` applied to a float: truncation toward zero. -/
def pyInt (q : ℚ) : ℤ := if 0 ≤ q then ⌊q⌋ else ⌈q⌉

/-- Modelled from the spec: the `Phases` enumeration `{CALM, WARM, HOT, CHAOS}`
(§3).  The enum declaration itself is not under `src/` — only its users
(`reducer/rules/logic.py`, `reducer/updater.py`) and its unit tests are; the
integer values 0..3 follow the comment in `tests/reducer/unit/test_updater.py`
(`Phases.CALM=0, WARM=1, HOT=2, CHAOS=3`). -/
inductive Phases where
  | CALM
  | WARM
  | HOT
  | CHAOS
deriving DecidableEq, Repr

/-- The `.value` of a `Phases` member, as stored in `GlobalState.phase`. -/
def Phases.value : Phases → ℕ
  | .CALM => 0
  | .WARM => 1
  | .HOT => 2
  | .CHAOS => 3

/-- Embedding of `shared/models.py` `RulesConfig`. -/
structure RulesConfig where
  entropy_alpha : ℚ
  max_rate_for_entropy : ℚ
  calm_threshold : ℚ
  hot_threshold : ℚ
  chaos_threshold : ℚ
  cooldown_calm_ms : ℤ
  cooldown_warm_ms : ℤ
  cooldown_chaos_ms : ℤ
  reveal_calm_ms : ℤ
  reveal_warm_ms : ℤ
  reveal_chaos_ms : ℤ
deriving DecidableEq, Repr

/-- Embedding of `shared/models.py` `PressEvent`. -/
structure PressEvent where
  offset : ℤ
  timestamp_ms : ℤ
  request_id : String
deriving DecidableEq, Repr

/-- Embedding of `shared/models.py` `CreateGlobalStateEntity`. -/
structure CreateGlobalStateEntity where
  last_applied_offset : ℤ
  updated_at_ms : ℤ
  ruleshash : String
  counter : ℤ
  phase : ℕ
  entropy : ℚ
  reveal_until_ms : ℤ
  cooldown_ms : Option ℤ
deriving DecidableEq, Repr

/-- Embedding of `shared/models.py` `GlobalStateEntity` (adds `id`). -/
structure GlobalStateEntity extends CreateGlobalStateEntity where
  id : ℤ
deriving DecidableEq, Repr

/-- Embedding of `reducer/rules/logic.py` `update_entropy`. -/
def update_entropy (prev_entropy : ℚ) (dt_sec : Option ℚ) (rules : RulesConfig) : ℚ :=
  let instant_intensity : ℚ :=
    match dt_sec with
    | none => 1
    | some dt =>
      let instant_rate := min (1 / max dt (1 / 1000)) rules.max_rate_for_entropy
      instant_rate / rules.max_rate_for_entropy
  let alpha := rules.entropy_alpha
  let new_entropy := (1 - alpha) * prev_entropy + alpha * instant_intensity
  max 0 (min 1 new_entropy)

/-- Embedding of `reducer/rules/logic.py` `transition_phase`. -/
def transition_phase (entropy : ℚ) (rules : RulesConfig) : Phases :=
  if entropy < rules.calm_threshold then .CALM
  else if entropy < rules.hot_threshold then .WARM
  else if entropy < rules.chaos_threshold then .HOT
  else .CHAOS

/-- Embedding of `reducer/rules/logic.py` `compute_cooldown_ms`; the final
`int(...)` is Python truncation toward zero. -/
def compute_cooldown_ms (phase : Phases) (entropy : ℚ) (rules : RulesConfig) : ℤ :=
  let base : ℤ :=
    match phase with
    | .CALM => rules.cooldown_calm_ms
    | .WARM => rules.cooldown_warm_ms
    | _ => rules.cooldown_chaos_ms
  pyInt ((base : ℚ) * (1 / 2 + 1 / 2 * entropy))

/-- Embedding of `reducer/rules/logic.py` `compute_reveal_until_ms`. -/
def compute_reveal_until_ms (prev_reveal_until_ms : Option ℤ) (event_ts_ms : ℤ)
    (phase : Phases) (rules : RulesConfig) : ℤ :=
  let duration : ℤ :=
    match phase with
    | .CALM => rules.reveal_calm_ms
    | .WARM => rules.reveal_warm_ms
    | _ => rules.reveal_chaos_ms
  let candidate := event_ts_ms + duration
  match prev_reveal_until_ms with
  | none => candidate
  | some prev => max prev candidate

/-- Embedding of `reducer/updater.py` `apply_event`.  The state argument only
uses the `CreateGlobalStateEntity` fields (the Python fold passes both
`GlobalStateEntity` and `CreateGlobalStateEntity` values here). -/
def apply_event (state : CreateGlobalStateEntity) (event : PressEvent)
    (rules_config : RulesConfig) (rules_hash : String) : CreateGlobalStateEntity :=
  let dt_sec : Option ℚ :=
    if state.updated_at_ms = 0 then none
    else
      let dt_ms : ℤ := max (event.timestamp_ms - state.updated_at_ms) 1
      some ((dt_ms : ℚ) / 1000)
  let new_state_counter := state.counter + 1
  let new_entropy := update_entropy state.entropy dt_sec rules_config
  let new_phase := transition_phase new_entropy rules_config
  let new_countdown := compute_cooldown_ms new_phase new_entropy rules_config
  let new_reveal :=
    compute_reveal_until_ms (some state.reveal_until_ms) event.timestamp_ms
      new_phase rules_config
  { last_applied_offset := event.offset
    updated_at_ms := event.timestamp_ms
    ruleshash := rules_hash
    counter := new_state_counter
    phase := new_phase.value
    entropy := new_entropy
    reveal_until_ms := new_reveal
    cooldown_ms := some new_countdown }

/-- Embedding of `reducer/updater.py` `apply_batch`: fold the events through
`apply_event` in offset order. -/
def apply_batch (state : CreateGlobalStateEntity) (events : List PressEvent)
    (rules_config : RulesConfig) (rules_hash : String) : CreateGlobalStateEntity :=
  (events.mergeSort (fun a b => a.offset ≤ b.offset)).foldl
    (fun s e => apply_event s e rules_config rules_hash) state

/-- Embedding of `reducer/writer.py` `get_initial_state`. -/
def get_initial_state (rules_hash : String) : GlobalStateEntity :=
  { id := 0
    last_applied_offset := -1
    updated_at_ms := 0
    ruleshash := rules_hash
    counter := 0
    phase := 0
    entropy := 0
    reveal_until_ms := 0
    cooldown_ms := none }

/-- Embedding of `reducer/main.py` state selection: the in-memory state the
fold starts from is the last persisted state when one exists, else the
initial state stamped with the latest ruleset hash. -/
def reducer_initial_fold_state (latest_hash : String)
    (persisted : Option GlobalStateEntity) : CreateGlobalStateEntity :=
  (persisted.getD (get_initial_state latest_hash)).toCreateGlobalStateEntity

/-- Embedding of one batch iteration of `reducer/main.py` `main`: the rules
config and hash passed to `apply_batch` are the ones returned by
`get_latest_rules()` at startup, regardless of any persisted state. -/
def reducer_fold_batch (latest_rules : RulesConfig) (latest_hash : String)
    (persisted : Option GlobalStateEntity) (events : List PressEvent) :
    CreateGlobalStateEntity :=
  apply_batch (reducer_initial_fold_state latest_hash persisted) events
    latest_rules latest_hash

/-- Embedding of `api/pow.py` `Solution`. -/
structure Solution where
  challenge_id : String
  difficulty : ℕ
  expires_at : ℤ
  signature : String
  nonce : String
deriving DecidableEq, Repr

/-- Embedding of `api/pow.py` `_sign_challenge`: the HMAC-SHA256 (abstracted
as the function `hmacHex`, which closes over the server secret) of
`challenge_id ":" difficulty ":" expires_at`. -/
def sign_challenge (hmacHex : String → String) (challenge_id : String)
    (difficulty : ℕ) (expires_at : ℤ) : String :=
  hmacHex (challenge_id ++ ":" ++ toString difficulty ++ ":" ++ toString expires_at)

/-- Embedding of `api/pow.py` `_check_hash_difficulty`: the hex digest starts
with `difficulty` zeros (`startswith` modelled on the character sequence). -/
def check_hash_difficulty (hash_hex : String) (difficulty : ℕ) : Bool :=
  (List.replicate difficulty (Char.ofNat 48)).isPrefixOf hash_hex.data

/-- Embedding of `api/pow.py` `_compute_solution_hash`: SHA-256 (abstracted as
`sha256Hex`) of `challenge_id ":" nonce`. -/
def compute_solution_hash (sha256Hex : String → String)
    (challenge_id nonce : String) : String :=
  sha256Hex (challenge_id ++ ":" ++ nonce)

/-- The result of `verify_solution` together with the used-challenge set
after the call (the Redis key-space, assumed reachable). -/
structure VerifyResult where
  valid : Bool
  error : Option String
  used : List String
deriving DecidableEq, Repr

/-- Embedding of `api/pow.py` `verify_solution` with a reachable used-set
store: signature check, expiry check, replay check, hash-difficulty check, in
that order; on success the challenge id is recorded used. -/
def verify_solution (hmacHex sha256Hex : String → String) (bypass : Bool)
    (used : List String) (now : ℤ) (sol : Solution) : VerifyResult :=
  if bypass then ⟨true, none, used⟩
  else if sign_challenge hmacHex sol.challenge_id sol.difficulty sol.expires_at
      ≠ sol.signature then
    ⟨false, some "Invalid challenge signature", used⟩
  else if sol.expires_at < now then
    ⟨false, some "Challenge expired", used⟩
  else if sol.challenge_id ∈ used then
    ⟨false, some "Challenge already used", used⟩
  else if ¬ check_hash_difficulty
      (compute_solution_hash sha256Hex sol.challenge_id sol.nonce)
      sol.difficulty then
    ⟨false, some "Invalid proof of work", used⟩
  else
    ⟨true, none, sol.challenge_id :: used⟩

/-- Embedding of `api/ratelimiter.py` `RateLimitConfig` (the Redis key
namespace string is irrelevant to the algorithm and omitted). -/
structure RateLimitConfig where
  requests : ℕ
  window_seconds : ℤ
deriving DecidableEq, Repr

/-- Embedding of the `zremrangebyscore(key, 0, window_start)` step: drop the
timestamps whose score lies in `[0, window_start]`. -/
def evict_window (store : List ℚ) (window_start : ℚ) : List ℚ :=
  store.filter (fun t => decide (¬ (0 ≤ t ∧ t ≤ window_start)))

/-- The `zrange(key, 0, 0)` step on a sorted set: its minimum element. -/
def list_min : List ℚ → Option ℚ
  | [] => none
  | x :: xs => some (xs.foldl min x)

/-- The outcome of `check_rate_limit` together with the per-key sorted set
after the call. -/
structure RateCheckResult where
  allowed : Bool
  remaining : ℤ
  retry_after : ℤ
  store : List ℚ
deriving DecidableEq, Repr

/-- Embedding of `api/ratelimiter.py` `check_rate_limit` with a reachable
backing store: evict entries older than the window, count, and either reject
with `retry_after = max(1, int(oldest + window - now) + 1)` or record `now`. -/
def check_rate_limit (store : List ℚ) (now : ℚ) (config : RateLimitConfig) :
    RateCheckResult :=
  let window_start := now - (config.window_seconds : ℚ)
  let s := evict_window store window_start
  let current_count := s.length
  if config.requests ≤ current_count then
    let retry_after : ℤ :=
      match list_min s with
      | none => 1
      | some oldest =>
          max 1 (pyInt (oldest + (config.window_seconds : ℚ) - now) + 1)
    ⟨false, 0, retry_after, s⟩
  else
    ⟨true, (config.requests : ℤ) - current_count - 1, 0, now :: s⟩

/-- Outcome of one produce-and-flush interaction with the broker in
`press_button`: the flush returned with `remaining` messages still queued, or
`send_message`/`flush_producer` raised `BufferError` or `KafkaException`. -/
inductive BrokerResult where
  | flushed (remaining : ℕ)
  | bufferError
  | kafkaError
deriving DecidableEq, Repr

/-- An HTTP outcome of the press endpoint: the 202 body, or an error status
with its detail string. -/
inductive PressOutcome where
  | accepted (request_id : String) (timestamp_ms : ℤ)
  | rejected (statusCode : ℕ) (detail : String)
deriving DecidableEq, Repr

/-- The HTTP status of a press outcome (202 is the route's declared
`status_code`). -/
def PressOutcome.status : PressOutcome → ℕ
  | .accepted _ _ => 202
  | .rejected s _ => s

/-- Embedding of `api/routes.py` `press_button` after rate limiting: verify
the PoW solution, then produce the event and flush; map a non-empty flush
queue, a buffer overflow, and a broker exception each to a 503. -/
def press_button (hmacHex sha256Hex : String → String) (bypass : Bool)
    (used : List String) (now : ℤ) (sol : Solution) (req_id : String)
    (timestamp_ms : ℤ) (broker : BrokerResult) : PressOutcome :=
  let v := verify_solution hmacHex sha256Hex bypass used now sol
  if v.valid = false then
    .rejected 400 (v.error.getD "Invalid proof of work")
  else
    match broker with
    | .flushed remaining =>
        if 0 < remaining then .rejected 503 "Message delivery timed out"
        else .accepted req_id timestamp_ms
    | .bufferError => .rejected 503 "Service temporarily overloaded"
    | .kafkaError => .rejected 503 "Message broker unavailable"

/-- Embedding of `shared/models.py` `PersistedGlobalState` (the
storage-assigned `created_at` is not used by the notifier and omitted). -/
structure PersistedGlobalState where
  id : ℤ
  last_applied_offset : ℤ
  ruleshash : String
deriving DecidableEq, Repr

/-- A JSON scalar as it appears in the update-channel message. -/
inductive JsonVal where
  | str (s : String)
  | int (i : ℤ)
deriving DecidableEq, Repr

/-- Embedding of `reducer/notify.py` `publish_state_update`: the JSON object
published on the update channel, as an ordered key-value list. -/
def publish_state_update_msg (state : PersistedGlobalState) :
    List (String × JsonVal) :=
  [("type", .str "state_updated"),
   ("id", .int state.id),
   ("last_applied_offset", .int state.last_applied_offset),
   ("ruleshash", .str state.ruleshash)]

/-! Helper lemmas shared across the development. -/

/-- The clamp used by `update_entropy` is bounded below by 0. -/
lemma clamp01_nonneg (x : ℚ) : 0 ≤ max 0 (min 1 x) := le_max_left 0 _

/-- The clamp used by `update_entropy` is bounded above by 1. -/
lemma clamp01_le_one (x : ℚ) : max 0 (min 1 x) ≤ 1 :=
  max_le (by norm_num) (min_le_left 1 x)

/-- The `dt_sec` computed by `apply_event` is at least one millisecond, so the
defensive `max(dt_sec, 1e-3)` inside `update_entropy` is the identity there. -/
lemma dt_sec_ge_millis (d : ℤ) : (1 : ℚ) / 1000 ≤ ((max d 1 : ℤ) : ℚ) / 1000 := by
  have h1 : (1 : ℤ) ≤ max d 1 := le_max_right d 1
  have h2 : (1 : ℚ) ≤ ((max d 1 : ℤ) : ℚ) := by exact_mod_cast h1
  linarith

/-- C1: in `apply_event`, a genesis prior state (`updated_at_ms = 0`) yields
`dt_sec = None` and instantaneous intensity 1; otherwise
`dt_sec = max(event.timestamp_ms - prev.updated_at_ms, 1)/1000` and the
intensity is `min(1/dt_sec, max_rate_for_entropy)/max_rate_for_entropy`; the
new entropy is the clamp to `[0,1]` of
`(1-entropy_alpha)*prev_entropy + entropy_alpha*intensity`, hence lies in
`[0,1]`. -/
theorem apply_event_entropy_c1 (state : CreateGlobalStateEntity)
    (event : PressEvent) (rules : RulesConfig) (rules_hash : String) :
    (apply_event state event rules rules_hash).entropy =
      max 0 (min 1 ((1 - rules.entropy_alpha) * state.entropy +
        rules.entropy_alpha *
          (if state.updated_at_ms = 0 then 1
           else
             min (1 / (((max (event.timestamp_ms - state.updated_at_ms) 1 : ℤ) : ℚ) / 1000))
                 rules.max_rate_for_entropy / rules.max_rate_for_entropy)))
    ∧ 0 ≤ (apply_event state event rules rules_hash).entropy
    ∧ (apply_event state event rules rules_hash).entropy ≤ 1 := by
  refine ⟨?_, ?_, ?_⟩
  · by_cases h : state.updated_at_ms = 0
    · simp [apply_event, update_entropy, h]
    · simp only [apply_event, update_entropy, h, if_neg, if_false, ite_false]
      rw [max_eq_left (dt_sec_ge_millis _)]
  · simp only [apply_event, update_entropy]
    exact clamp01_nonneg _
  · simp only [apply_event, update_entropy]
    exact clamp01_le_one _

/-- A concrete ruleset used for counterexamples and witnesses:
`entropy_alpha = 3/20`, `max_rate_for_entropy = 5`, thresholds
`3/10, 7/10, 17/20`, cooldown bases `10, 20, 30`, reveal durations
`100, 200, 300`. -/
def sampleRules : RulesConfig :=
  ⟨3/20, 5, 3/10, 7/10, 17/20, 10, 20, 30, 100, 200, 300⟩

/-- A prior state whose `updated_at_ms` is 1000. -/
def stateAt1000 : CreateGlobalStateEntity := ⟨0, 1000, "h", 0, 0, 0, 0, none⟩

/-- C2 counterexample: folding an event whose source timestamp 500 is older
than the prior state's `updated_at_ms = 1000` produces a state whose
`updated_at_ms` is 500, strictly smaller — the fold does decrease it on an
out-of-order source timestamp. -/
theorem apply_event_updated_at_decreases_c2 :
    (apply_event stateAt1000 ⟨1, 500, "r"⟩ sampleRules "h").updated_at_ms = 500
    ∧ ¬ stateAt1000.updated_at_ms ≤
        (apply_event stateAt1000 ⟨1, 500, "r"⟩ sampleRules "h").updated_at_ms := by
  refine ⟨rfl, ?_⟩
  show ¬ (1000 : ℤ) ≤ 500
  decide

/-- C2 amended: `apply_event` sets the new `updated_at_ms` to
`event.timestamp_ms` unconditionally; consequently `updated_at_ms` does not
decrease whenever the event's timestamp is not older than the prior state's
`updated_at_ms`, but an older out-of-order source timestamp decreases it. -/
theorem apply_event_updated_at_c2_amended (state : CreateGlobalStateEntity)
    (event : PressEvent) (rules : RulesConfig) (rules_hash : String) :
    (apply_event state event rules rules_hash).updated_at_ms = event.timestamp_ms
    ∧ (state.updated_at_ms ≤ event.timestamp_ms →
        state.updated_at_ms ≤ (apply_event state event rules rules_hash).updated_at_ms) := by
  exact ⟨rfl, fun h => h⟩

/-- C2 amended witness: a fold of an in-order event (timestamp 2000 over a
state updated at 1000) keeps `updated_at_ms` non-decreasing. -/
theorem apply_event_updated_at_c2_amended_witness :
    (apply_event stateAt1000 ⟨1, 2000, "r"⟩ sampleRules "h").updated_at_ms = 2000
    ∧ stateAt1000.updated_at_ms ≤
        (apply_event stateAt1000 ⟨1, 2000, "r"⟩ sampleRules "h").updated_at_ms := by
  have h := apply_event_updated_at_c2_amended stateAt1000 ⟨1, 2000, "r"⟩ sampleRules "h"
  exact ⟨h.1, h.2 (by decide)⟩

/-- The genesis in-memory state (all zeros), as produced by
`get_initial_state` up to the unused `id` and offset fields. -/
def genesisState : CreateGlobalStateEntity := ⟨0, 0, "h", 0, 0, 0, 0, none⟩

/-- Unfolding of `compute_cooldown_ms` at the phase derived from the same
entropy: the base is chosen by the entropy thresholds, with HOT and CHAOS
sharing the chaos base. -/
lemma compute_cooldown_ms_eq_threshold_form (e : ℚ) (rules : RulesConfig) :
    compute_cooldown_ms (transition_phase e rules) e rules =
      pyInt ((((if e < rules.calm_threshold then rules.cooldown_calm_ms
        else if e < rules.hot_threshold then rules.cooldown_warm_ms
        else rules.cooldown_chaos_ms) : ℤ) : ℚ) * (1/2 + 1/2 * e)) := by
  unfold compute_cooldown_ms transition_phase
  by_cases h1 : e < rules.calm_threshold
  · simp [h1]
  · by_cases h2 : e < rules.hot_threshold
    · simp [h1, h2]
    · by_cases h3 : e < rules.chaos_threshold
      · simp [h1, h2, h3]
      · simp [h1, h2, h3]

/-- The entropy produced by the counterexample fold from genesis under
`sampleRules` is `3/20`. -/
lemma genesis_fold_entropy :
    (apply_event genesisState ⟨1, 1000, "r"⟩ sampleRules "h").entropy = 3/20 := by
  simp only [apply_event, update_entropy, genesisState, sampleRules]
  norm_num [min_def, max_def]

/-- C3 counterexample: from genesis under `sampleRules`
(`entropy_alpha = 3/20`), the fold yields entropy `3/20` and phase CALM with
calm cooldown base 10, so `base*(0.5+0.5*entropy) = 5.75`; the code stores
`int(5.75) = 5`, while the claimed `round(5.75) = 6`. -/
theorem apply_event_cooldown_not_round_c3 :
    (apply_event genesisState ⟨1, 1000, "r"⟩ sampleRules "h").entropy = 3/20
    ∧ (apply_event genesisState ⟨1, 1000, "r"⟩ sampleRules "h").cooldown_ms = some 5
    ∧ round ((sampleRules.cooldown_calm_ms : ℚ) *
        (1/2 + 1/2 * (apply_event genesisState ⟨1, 1000, "r"⟩ sampleRules "h").entropy)) = 6
    ∧ (5 : ℤ) ≠ 6 := by
  have hent := genesis_fold_entropy
  have hcool : (apply_event genesisState ⟨1, 1000, "r"⟩ sampleRules "h").cooldown_ms
      = some (compute_cooldown_ms
          (transition_phase (apply_event genesisState ⟨1, 1000, "r"⟩ sampleRules "h").entropy sampleRules)
          (apply_event genesisState ⟨1, 1000, "r"⟩ sampleRules "h").entropy sampleRules) := rfl
  rw [hent] at hcool
  refine ⟨hent, ?_, ?_, by decide⟩
  · rw [hcool, compute_cooldown_ms_eq_threshold_form]
    have hlt : (3/20 : ℚ) < sampleRules.calm_threshold := by norm_num [sampleRules]
    rw [if_pos hlt]
    have harg : ((sampleRules.cooldown_calm_ms : ℤ) : ℚ) * (1/2 + 1/2 * (3/20)) = 23/4 := by
      norm_num [sampleRules]
    rw [harg]
    have hfl : pyInt (23/4 : ℚ) = 5 := by
      rw [pyInt, if_pos (by norm_num)]
      rw [Int.floor_eq_iff]
      norm_num
    exact congrArg some hfl
  · rw [hent]
    have harg : ((sampleRules.cooldown_calm_ms : ℤ) : ℚ) * (1/2 + 1/2 * (3/20)) = 23/4 := by
      norm_num [sampleRules]
    rw [harg, round_eq]
    rw [show ((23:ℚ)/4 + 1/2) = 25/4 by norm_num]
    rw [Int.floor_eq_iff]
    norm_num

/-- C3 amended: the resulting `cooldown_ms` is the Python `int` truncation
(not the rounding) of `base_for_phase * (0.5 + 0.5 * new_entropy)`, where
`base_for_phase` is `cooldown_calm_ms` below the calm threshold (CALM),
`cooldown_warm_ms` below the hot threshold (WARM), and `cooldown_chaos_ms`
otherwise (both HOT and CHAOS). -/
theorem apply_event_cooldown_c3_amended (state : CreateGlobalStateEntity)
    (event : PressEvent) (rules : RulesConfig) (rules_hash : String) :
    (apply_event state event rules rules_hash).cooldown_ms =
      some (pyInt
        ((((if (apply_event state event rules rules_hash).entropy < rules.calm_threshold
            then rules.cooldown_calm_ms
            else if (apply_event state event rules rules_hash).entropy < rules.hot_threshold
            then rules.cooldown_warm_ms
            else rules.cooldown_chaos_ms) : ℤ) : ℚ) *
          (1/2 + 1/2 * (apply_event state event rules rules_hash).entropy))) := by
  have h : (apply_event state event rules rules_hash).cooldown_ms
      = some (compute_cooldown_ms
          (transition_phase (apply_event state event rules rules_hash).entropy rules)
          (apply_event state event rules rules_hash).entropy rules) := rfl
  rw [h, compute_cooldown_ms_eq_threshold_form]

/-- One `apply_event` step never shortens the reveal window. -/
lemma apply_event_reveal_mono (state : CreateGlobalStateEntity)
    (event : PressEvent) (rules : RulesConfig) (rules_hash : String) :
    state.reveal_until_ms ≤ (apply_event state event rules rules_hash).reveal_until_ms := by
  show state.reveal_until_ms ≤ compute_reveal_until_ms (some state.reveal_until_ms) _ _ _
  unfold compute_reveal_until_ms
  exact le_max_left _ _

/-- Folding any list of events through `apply_event` never shortens the
reveal window. -/
lemma foldl_apply_event_reveal_mono (rules : RulesConfig) (rules_hash : String)
    (events : List PressEvent) (state : CreateGlobalStateEntity) :
    state.reveal_until_ms ≤
      (events.foldl (fun s e => apply_event s e rules rules_hash) state).reveal_until_ms := by
  induction events generalizing state with
  | nil => exact le_refl _
  | cons e rest ih =>
      exact le_trans (apply_event_reveal_mono state e rules rules_hash)
        (ih (apply_event state e rules rules_hash))

/-- C4: each `apply_event` sets `reveal_until_ms` to the maximum of the prior
value and `event.timestamp_ms` plus the reveal duration of the phase computed
in this fold; consequently `reveal_until_ms` is non-decreasing across any
batch of successively applied events (`apply_batch`). -/
theorem apply_event_reveal_c4 (state : CreateGlobalStateEntity)
    (event : PressEvent) (rules : RulesConfig) (rules_hash : String)
    (events : List PressEvent) :
    (apply_event state event rules rules_hash).reveal_until_ms =
      max state.reveal_until_ms (event.timestamp_ms +
        (match transition_phase (apply_event state event rules rules_hash).entropy rules with
         | .CALM => rules.reveal_calm_ms
         | .WARM => rules.reveal_warm_ms
         | _ => rules.reveal_chaos_ms))
    ∧ state.reveal_until_ms ≤ (apply_event state event rules rules_hash).reveal_until_ms
    ∧ state.reveal_until_ms ≤ (apply_batch state events rules rules_hash).reveal_until_ms := by
  refine ⟨rfl, apply_event_reveal_mono state event rules rules_hash, ?_⟩
  exact foldl_apply_event_reveal_mono rules rules_hash _ state

/-- A persisted state carrying ruleset hash "A" (counter 3, updated at
1000 ms), used to exhibit the reducer's rules selection. -/
def persistedWithHashA : GlobalStateEntity :=
  { get_initial_state "A" with updated_at_ms := 1000, counter := 3 }

/-- Folding a non-empty list of events stamps the supplied rules hash on the
resulting state. -/
lemma foldl_apply_event_ruleshash (rules : RulesConfig) (rules_hash : String) :
    ∀ (l : List PressEvent) (s : CreateGlobalStateEntity), l ≠ [] →
      (l.foldl (fun s e => apply_event s e rules rules_hash) s).ruleshash = rules_hash := by
  intro l
  induction l with
  | nil => intro s h; exact absurd rfl h
  | cons e rest ih =>
      intro s _
      cases rest with
      | nil => rfl
      | cons e2 r2 => exact ih _ (by simp)

/-- A non-empty `apply_batch` stamps the supplied rules hash on the result. -/
lemma apply_batch_ruleshash (state : CreateGlobalStateEntity)
    (events : List PressEvent) (rules : RulesConfig) (rules_hash : String)
    (hne : events ≠ []) :
    (apply_batch state events rules rules_hash).ruleshash = rules_hash := by
  unfold apply_batch
  refine foldl_apply_event_ruleshash rules rules_hash _ state ?_
  intro h0
  have hperm := List.mergeSort_perm events (fun a b => decide (a.offset ≤ b.offset))
  rw [h0] at hperm
  exact hne hperm.symm.eq_nil

/-- C5: evaluating the reducer main-loop fold at a persisted state whose
`rules_hash` is "A" while the latest available ruleset hash is "B": the new
state is stamped with "B" — `main` passes the ruleset from
`get_latest_rules()` to `apply_batch` unconditionally, never looking up the
ruleset pinned by the persisted state's hash. -/
theorem reducer_uses_latest_rules_c5 :
    persistedWithHashA.ruleshash = "A"
    ∧ (reducer_fold_batch sampleRules "B" (some persistedWithHashA)
        [⟨5, 2000, "r"⟩]).ruleshash = "B"
    ∧ ("B" : String) ≠ "A" := by
  refine ⟨rfl, ?_, by decide⟩
  exact apply_batch_ruleshash _ _ _ _ (by simp)

/-- C6: with the bypass disabled and the used-set store reachable,
`verify_solution` accepts exactly when the recomputed HMAC signature over
`(challenge_id, difficulty, expires_at)` matches, `now ≤ expires_at`, the
challenge id is not yet in the used-set, and the hex hash of
`challenge_id ":" nonce` has at least `difficulty` leading zeros; on
acceptance the challenge id is recorded in the used-set, and resubmitting the
identical solution against the updated set is rejected, so each challenge is
accepted at most once and any forged signature or tampered field fails the
signature comparison and is rejected. -/
theorem verify_solution_c6 (hmacHex sha256Hex : String → String)
    (used : List String) (now : ℤ) (sol : Solution) :
    ((verify_solution hmacHex sha256Hex false used now sol).valid = true ↔
      (sign_challenge hmacHex sol.challenge_id sol.difficulty sol.expires_at
          = sol.signature
        ∧ now ≤ sol.expires_at
        ∧ sol.challenge_id ∉ used
        ∧ check_hash_difficulty
            (compute_solution_hash sha256Hex sol.challenge_id sol.nonce)
            sol.difficulty = true))
    ∧ ((verify_solution hmacHex sha256Hex false used now sol).valid = true →
        (verify_solution hmacHex sha256Hex false used now sol).used
            = sol.challenge_id :: used
        ∧ (verify_solution hmacHex sha256Hex false
            (verify_solution hmacHex sha256Hex false used now sol).used
            now sol).valid = false) := by
  unfold verify_solution
  by_cases hsig : sign_challenge hmacHex sol.challenge_id sol.difficulty sol.expires_at
      = sol.signature
  · by_cases hexp : sol.expires_at < now
    · simp [hsig, hexp]
    · by_cases hused : sol.challenge_id ∈ used
      · simp [hsig, hexp, hused]
      · by_cases hpow : check_hash_difficulty
            (compute_solution_hash sha256Hex sol.challenge_id sol.nonce)
            sol.difficulty = true
        · simp [hsig, hexp, hused, hpow, not_lt.mp hexp]
        · simp [hsig, hexp, hused, hpow]
  · simp [hsig]

/-- C6 witness: a concrete schedule with a constant signing function, a hash
function returning "00", difficulty 2, expiry 10 at `now = 0` and an empty
used-set is accepted, and the identical resubmission is rejected. -/
theorem verify_solution_c6_witness :
    (verify_solution (fun _ => "sig") (fun _ => "00") false [] 0
      ⟨"c", 2, 10, "sig", "n"⟩).valid = true
    ∧ (verify_solution (fun _ => "sig") (fun _ => "00") false
        (verify_solution (fun _ => "sig") (fun _ => "00") false [] 0
          ⟨"c", 2, 10, "sig", "n"⟩).used 0
        ⟨"c", 2, 10, "sig", "n"⟩).valid = false := by
  have h := verify_solution_c6 (fun _ => "sig") (fun _ => "00") [] 0
    ⟨"c", 2, 10, "sig", "n"⟩
  have hv : (verify_solution (fun _ => "sig") (fun _ => "00") false [] 0
      ⟨"c", 2, 10, "sig", "n"⟩).valid = true := by
    refine h.1.mpr ⟨rfl, by decide, by decide, ?_⟩
    decide
  exact ⟨hv, (h.2 hv).2⟩

/-- C10: whenever the phase computed inside a fold is HOT, the reveal
duration added to the event timestamp is `reveal_chaos_ms` — the same
duration CHAOS uses — so the fold result is the maximum of the prior window
and `event.timestamp_ms + reveal_chaos_ms`. -/
theorem apply_event_hot_reveal_c10 (state : CreateGlobalStateEntity)
    (event : PressEvent) (rules : RulesConfig) (rules_hash : String)
    (hhot : transition_phase (apply_event state event rules rules_hash).entropy rules
      = Phases.HOT) :
    (apply_event state event rules rules_hash).reveal_until_ms =
      max state.reveal_until_ms (event.timestamp_ms + rules.reveal_chaos_ms)
    ∧ compute_reveal_until_ms (some state.reveal_until_ms) event.timestamp_ms
        Phases.HOT rules =
      compute_reveal_until_ms (some state.reveal_until_ms) event.timestamp_ms
        Phases.CHAOS rules := by
  constructor
  · show compute_reveal_until_ms (some state.reveal_until_ms) event.timestamp_ms
        (transition_phase (apply_event state event rules rules_hash).entropy rules)
        rules = _
    rw [hhot]
    rfl
  · rfl

/-- Rules whose thresholds make a genesis fold land in phase HOT:
`entropy_alpha = 1/2`, thresholds `1/10, 2/10, 9/10`. -/
def hotRules : RulesConfig :=
  ⟨1/2, 5, 1/10, 2/10, 9/10, 10, 20, 30, 100, 200, 300⟩

/-- C10 witness: a genesis fold under `hotRules` lands in HOT and its reveal
window is `max 0 (1000 + 300) = 1300`, using the chaos duration. -/
theorem apply_event_hot_reveal_c10_witness :
    (apply_event genesisState ⟨1, 1000, "r"⟩ hotRules "h").reveal_until_ms =
      max genesisState.reveal_until_ms (1000 + hotRules.reveal_chaos_ms) := by
  have hent : (apply_event genesisState ⟨1, 1000, "r"⟩ hotRules "h").entropy = 1/2 := by
    simp only [apply_event, update_entropy, genesisState, hotRules]
    norm_num [min_def, max_def]
  have hhot : transition_phase
      (apply_event genesisState ⟨1, 1000, "r"⟩ hotRules "h").entropy hotRules
      = Phases.HOT := by
    rw [hent]
    norm_num [transition_phase, hotRules]
  exact (apply_event_hot_reveal_c10 genesisState ⟨1, 1000, "r"⟩ hotRules "h" hhot).1

/-- C7 counterexample: one entry at time 1/2, window 1 s, limit 1, checked at
`now = 1`: the entry is still in the window, so the request is rejected, and
the code computes `retry_after = max(1, int(1/2 + 1 - 1) + 1) = 1`, while the
claimed `ceil(earliest + window - now) + 1 = ceil(1/2) + 1 = 2`. -/
theorem check_rate_limit_retry_not_ceil_c7 :
    (check_rate_limit [1/2] 1 ⟨1, 1⟩).allowed = false
    ∧ (check_rate_limit [1/2] 1 ⟨1, 1⟩).retry_after = 1
    ∧ (⌈(1/2 : ℚ) + 1 - 1⌉ + 1 : ℤ) = 2
    ∧ (check_rate_limit [1/2] 1 ⟨1, 1⟩).retry_after ≠ ⌈(1/2 : ℚ) + 1 - 1⌉ + 1 := by
  have hs : evict_window [1/2] ((1 : ℚ) - ((1 : ℤ) : ℚ)) = [1/2] := by
    norm_num [evict_window]
  have hr : check_rate_limit [1/2] 1 ⟨1, 1⟩ =
      ⟨false, 0, max 1 (pyInt ((1/2 : ℚ) + ((1 : ℤ) : ℚ) - 1) + 1), [1/2]⟩ := by
    rw [check_rate_limit, hs]
    rfl
  have hp : pyInt ((1/2 : ℚ) + ((1 : ℤ) : ℚ) - 1) = 0 := by
    rw [show ((1/2 : ℚ) + ((1 : ℤ) : ℚ) - 1) = 1/2 by norm_num]
    rw [pyInt, if_pos (by norm_num), Int.floor_eq_iff]
    norm_num
  have hc : (⌈(1/2 : ℚ) + 1 - 1⌉ + 1 : ℤ) = 2 := by
    rw [show ((1/2 : ℚ) + 1 - 1) = 1/2 by norm_num]
    have hce : ⌈(1/2 : ℚ)⌉ = 1 := by
      rw [Int.ceil_eq_iff]
      norm_num
    rw [hce]
    decide
  rw [hr]
  refine ⟨rfl, ?_, hc, ?_⟩
  · show max 1 (pyInt ((1/2 : ℚ) + ((1 : ℤ) : ℚ) - 1) + 1) = 1
    rw [hp]
    norm_num
  · show max 1 (pyInt ((1/2 : ℚ) + ((1 : ℤ) : ℚ) - 1) + 1) ≠ _
    rw [hp, hc]
    decide

/-- C7 amended: with a reachable backing store, once the entries remaining in
the current window reach the limit the request is rejected, nothing is
recorded, and the rejection carries
`retry_after = max(1, int(earliest + window - now) + 1)` (Python `int`
truncation, not the ceiling), which is at least 1; when fewer than `limit`
entries remain in the window — in particular after the window has passed the
earliest entry — the request is admitted and `now` is recorded. -/
theorem check_rate_limit_c7_amended (store : List ℚ) (now : ℚ)
    (config : RateLimitConfig) :
    (config.requests ≤ (evict_window store (now - (config.window_seconds : ℚ))).length →
      (check_rate_limit store now config).allowed = false
      ∧ (check_rate_limit store now config).store
          = evict_window store (now - (config.window_seconds : ℚ))
      ∧ (check_rate_limit store now config).retry_after
          = (match list_min (evict_window store (now - (config.window_seconds : ℚ))) with
             | none => 1
             | some oldest => max 1 (pyInt (oldest + (config.window_seconds : ℚ) - now) + 1))
      ∧ 1 ≤ (check_rate_limit store now config).retry_after)
    ∧ ((evict_window store (now - (config.window_seconds : ℚ))).length < config.requests →
      (check_rate_limit store now config).allowed = true
      ∧ (check_rate_limit store now config).store
          = now :: evict_window store (now - (config.window_seconds : ℚ))) := by
  constructor
  · intro h
    rw [check_rate_limit]
    simp only [if_pos h]
    refine ⟨trivial, trivial, trivial, ?_⟩
    cases hmin : list_min (evict_window store (now - (config.window_seconds : ℚ))) with
    | none => simp [hmin]
    | some oldest => simp [hmin, le_max_left]
  · intro h
    rw [check_rate_limit]
    simp only [if_neg (not_le.mpr h)]
    exact ⟨trivial, trivial⟩

/-- C7 amended witness: at limit 1 and window 1 s, a check at `now = 1`
against the entry 1/2 is rejected with `retry_after = 1 ≥ 1`, and a check at
`now = 3` against the same entry (now outside the window) is admitted. -/
theorem check_rate_limit_c7_amended_witness :
    ((check_rate_limit [1/2] 1 ⟨1, 1⟩).allowed = false
      ∧ 1 ≤ (check_rate_limit [1/2] 1 ⟨1, 1⟩).retry_after)
    ∧ (check_rate_limit [1/2] 3 ⟨1, 1⟩).allowed = true := by
  have h1 := check_rate_limit_c7_amended [1/2] 1 ⟨1, 1⟩
  have h2 := check_rate_limit_c7_amended [1/2] 3 ⟨1, 1⟩
  have hs1 : evict_window [1/2] ((1 : ℚ) - ((1 : ℤ) : ℚ)) = [1/2] := by
    norm_num [evict_window]
  have hs2 : evict_window [1/2] ((3 : ℚ) - ((1 : ℤ) : ℚ)) = [] := by
    norm_num [evict_window]
  have hr1 := h1.1 (by rw [hs1]; norm_num)
  have hr2 := h2.2 (by rw [hs2]; norm_num)
  exact ⟨⟨hr1.1, hr1.2.2.2⟩, hr2.1⟩

/-- C8: with the PoW bypass disabled, the press endpoint returns the 202 body
`(request_id, timestamp_ms)` exactly when the solution verifies and the
broker flush leaves nothing queued; an invalid solution yields 400 carrying
the verifier's error message regardless of the broker; and a flush timeout
(non-empty queue after flush), a producer buffer overflow, and a broker
exception each yield status 503 — the call makes the single produce attempt
it was given and never retries. -/
theorem press_button_c8 (hmacHex sha256Hex : String → String)
    (used : List String) (now : ℤ) (sol : Solution) (req_id : String)
    (timestamp_ms : ℤ) :
    ((verify_solution hmacHex sha256Hex false used now sol).valid = true →
      press_button hmacHex sha256Hex false used now sol req_id timestamp_ms
          (.flushed 0) = .accepted req_id timestamp_ms
      ∧ (press_button hmacHex sha256Hex false used now sol req_id timestamp_ms
          (.flushed 0)).status = 202)
    ∧ ((verify_solution hmacHex sha256Hex false used now sol).valid = false →
      ∀ broker, press_button hmacHex sha256Hex false used now sol req_id
          timestamp_ms broker
        = .rejected 400
            ((verify_solution hmacHex sha256Hex false used now sol).error.getD
              "Invalid proof of work"))
    ∧ ((verify_solution hmacHex sha256Hex false used now sol).valid = true →
      (∀ remaining, 0 < remaining →
        (press_button hmacHex sha256Hex false used now sol req_id timestamp_ms
          (.flushed remaining)).status = 503)
      ∧ (press_button hmacHex sha256Hex false used now sol req_id timestamp_ms
          .bufferError).status = 503
      ∧ (press_button hmacHex sha256Hex false used now sol req_id timestamp_ms
          .kafkaError).status = 503) := by
  refine ⟨?_, ?_, ?_⟩
  · intro hv
    simp [press_button, hv, PressOutcome.status]
  · intro hv broker
    simp [press_button, hv]
  · intro hv
    refine ⟨?_, ?_, ?_⟩
    · intro remaining hrem
      simp [press_button, hv, hrem, PressOutcome.status]
    · simp [press_button, hv, PressOutcome.status]
    · simp [press_button, hv, PressOutcome.status]

/-- C8 witness: a concrete valid solution is accepted with 202 when the flush
queue drains, gets 503 on a one-message flush timeout, and a concrete
tampered solution gets 400 with the verifier's message. -/
theorem press_button_c8_witness :
    press_button (fun _ => "s8") (fun _ => "00") false [] 0
        ⟨"c8", 0, 10, "s8", "n"⟩ "rq" 77 (.flushed 0) = .accepted "rq" 77
    ∧ (press_button (fun _ => "s8") (fun _ => "00") false [] 0
        ⟨"c8", 0, 10, "s8", "n"⟩ "rq" 77 (.flushed 1)).status = 503
    ∧ press_button (fun _ => "s8") (fun _ => "00") false [] 0
        ⟨"c8", 0, 10, "bad", "n"⟩ "rq" 77 .bufferError
      = .rejected 400 "Invalid challenge signature" := by
  have hvalid : (verify_solution (fun _ => "s8") (fun _ => "00") false [] 0
      ⟨"c8", 0, 10, "s8", "n"⟩).valid = true := by decide
  have hinvalid : (verify_solution (fun _ => "s8") (fun _ => "00") false [] 0
      ⟨"c8", 0, 10, "bad", "n"⟩).valid = false := by decide
  have h1 := press_button_c8 (fun _ => "s8") (fun _ => "00") [] 0
    ⟨"c8", 0, 10, "s8", "n"⟩ "rq" 77
  have h2 := press_button_c8 (fun _ => "s8") (fun _ => "00") [] 0
    ⟨"c8", 0, 10, "bad", "n"⟩ "rq" 77
  refine ⟨(h1.1 hvalid).1, ((h1.2.2 hvalid).1 1 (by decide)), ?_⟩
  rw [h2.2.1 hinvalid .bufferError]
  decide

/-- C9 counterexample: the published update-channel message for the persisted
state `(id 1, offset 10, hash "h")` has no key `rules_hash` at all — the
rules hash rides under the key `ruleshash` — so the message is not of the
claimed form `{type, id, last_applied_offset, rules_hash}`. -/
theorem publish_state_update_no_rules_hash_key_c9 :
    (publish_state_update_msg ⟨1, 10, "h"⟩).lookup "rules_hash" = none
    ∧ (publish_state_update_msg ⟨1, 10, "h"⟩).lookup "ruleshash"
        = some (JsonVal.str "h") := by
  exact ⟨by decide, by decide⟩

/-- C9 amended: every published notification is the JSON object with exactly
the keys `type` (the string "state_updated"), `id`, `last_applied_offset`
(the integers from the newly persisted state) and `ruleshash` (its rules
hash) — the rules-hash key is spelled `ruleshash`, not `rules_hash`. -/
theorem publish_state_update_c9_amended (state : PersistedGlobalState) :
    (publish_state_update_msg state).lookup "type"
        = some (JsonVal.str "state_updated")
    ∧ (publish_state_update_msg state).lookup "id" = some (JsonVal.int state.id)
    ∧ (publish_state_update_msg state).lookup "last_applied_offset"
        = some (JsonVal.int state.last_applied_offset)
    ∧ (publish_state_update_msg state).lookup "ruleshash"
        = some (JsonVal.str state.ruleshash)
    ∧ (publish_state_update_msg state).map Prod.fst
        = ["type", "id", "last_applied_offset", "ruleshash"] := by
  refine ⟨rfl, ?_, ?_, ?_, rfl⟩ <;>
    simp [publish_state_update_msg, List.lookup]

end TheButton
